import Mathlib

/-!
Shallow embedding of the `url-to-gcs` action: the key/value option parser
(`parseKeyValuePairs` from the upload module), the upload routine
(`uploadStreamToGCS`), the existence check (`objectExists`) and the
orchestrator (`run` from `src/index.ts`, check-before-download variant),
together with a spec-modelled retrying fetch loop.  External effects
(HTTP transport, GCS) are abstracted as an environment oracle; the
control flow, validation and output logic are translated from the source.
-/

namespace UrlToGcs

/-! ## JSON values and a small JSON text parser (model of JSON.parse) -/

inductive JsonVal where
  | jnull
  | jbool (b : Bool)
  | jnum (lexeme : String)
  | jstr (s : String)
  | jarr (elems : List JsonVal)
  | jobj (fields : List (String × JsonVal))
  deriving Repr

/-- JavaScript `typeof v === 'object'`: objects, arrays and null. -/
def jsTypeofObject : JsonVal → Bool
  | .jobj _ => true
  | .jarr _ => true
  | .jnull => true
  | _ => false

def isJsonArr : JsonVal → Bool
  | .jarr _ => true
  | _ => false

/-- Field list of an object value (only reached for object values). -/
def jsObjFields : JsonVal → List (String × JsonVal)
  | .jobj fs => fs
  | _ => []

def isJsonWs (c : Char) : Bool :=
  c = ' ' || c = '\t' || c = '\n' || c = '\r'

def skipWs : List Char → List Char
  | [] => []
  | c :: cs => if isJsonWs c then skipWs cs else c :: cs

def hexDigitVal (c : Char) : Option Nat :=
  if '0' ≤ c ∧ c ≤ '9' then some (c.toNat - '0'.toNat)
  else if 'a' ≤ c ∧ c ≤ 'f' then some (c.toNat - 'a'.toNat + 10)
  else if 'A' ≤ c ∧ c ≤ 'F' then some (c.toNat - 'A'.toNat + 10)
  else none

/-- Parse the remainder of a JSON string literal (after the opening quote). -/
def parseStrChars (fuel : Nat) (cs : List Char) : Option (List Char × List Char) :=
  match fuel, cs with
  | 0, _ => none
  | _, [] => none
  | Nat.succ f, c :: rest =>
    if c = '"' then some ([], rest)
    else if c = '\\' then
      match rest with
      | [] => none
      | e :: rest2 =>
        if e = '"' ∨ e = '\\' ∨ e = '/' then
          (parseStrChars f rest2).map (fun p => (e :: p.1, p.2))
        else if e = 'n' then (parseStrChars f rest2).map (fun p => ('\n' :: p.1, p.2))
        else if e = 't' then (parseStrChars f rest2).map (fun p => ('\t' :: p.1, p.2))
        else if e = 'r' then (parseStrChars f rest2).map (fun p => ('\r' :: p.1, p.2))
        else if e = 'b' ∨ e = 'f' then (parseStrChars f rest2).map (fun p => (e :: p.1, p.2))
        else if e = 'u' then
          match rest2 with
          | h1 :: h2 :: h3 :: h4 :: rest3 =>
            match hexDigitVal h1, hexDigitVal h2, hexDigitVal h3, hexDigitVal h4 with
            | some a, some b, some c3, some d =>
              (parseStrChars f rest3).map
                (fun p => (Char.ofNat (a * 4096 + b * 256 + c3 * 16 + d) :: p.1, p.2))
            | _, _, _, _ => none
          | _ => none
        else none
    else (parseStrChars f rest).map (fun p => (c :: p.1, p.2))

def takeDigits : List Char → List Char × List Char
  | [] => ([], [])
  | c :: cs =>
    if c.isDigit then
      let (d, r) := takeDigits cs
      (c :: d, r)
    else ([], c :: cs)

/-- Parse a JSON number lexeme starting at `cs`. -/
def parseNumLexeme (cs : List Char) : Option (List Char × List Char) :=
  let (neg, cs1) :=
    match cs with
    | '-' :: r => (['-'], r)
    | _ => (([] : List Char), cs)
  match takeDigits cs1 with
  | ([], _) => none
  | (ds, r) =>
    let (frac, r2) :=
      match r with
      | '.' :: r' =>
        match takeDigits r' with
        | ([], _) => (([] : List Char), r)
        | (fs, r'') => ('.' :: fs, r'')
      | _ => (([] : List Char), r)
    let (expo, r3) :=
      match r2 with
      | 'e' :: r' =>
        match r' with
        | '+' :: r'' =>
          match takeDigits r'' with
          | ([], _) => (([] : List Char), r2)
          | (es, rr) => ('e' :: '+' :: es, rr)
        | '-' :: r'' =>
          match takeDigits r'' with
          | ([], _) => (([] : List Char), r2)
          | (es, rr) => ('e' :: '-' :: es, rr)
        | _ =>
          match takeDigits r' with
          | ([], _) => (([] : List Char), r2)
          | (es, rr) => ('e' :: es, rr)
      | 'E' :: r' =>
        match takeDigits r' with
        | ([], _) => (([] : List Char), r2)
        | (es, rr) => ('E' :: es, rr)
      | _ => (([] : List Char), r2)
    some (neg ++ ds ++ frac ++ expo, r3)

def startsWithChars : List Char → List Char → Option (List Char)
  | [], cs => some cs
  | _, [] => none
  | p :: ps, c :: cs => if p = c then startsWithChars ps cs else none

mutual

/-- Parse one JSON value (fuel-bounded recursive descent). -/
def parseVal : Nat → List Char → Option (JsonVal × List Char)
  | 0, _ => none
  | Nat.succ fuel, cs =>
    match skipWs cs with
    | [] => none
    | c :: rest =>
      if c = '"' then
        (parseStrChars (rest.length + 1) rest).map (fun p => (.jstr (String.mk p.1), p.2))
      else if c = '{' then
        parseMembers fuel (skipWs rest) true []
      else if c = '[' then
        parseElems fuel (skipWs rest) true []
      else
        match startsWithChars ['n', 'u', 'l', 'l'] (c :: rest) with
        | some r => some (.jnull, r)
        | none =>
        match startsWithChars ['t', 'r', 'u', 'e'] (c :: rest) with
        | some r => some (.jbool true, r)
        | none =>
        match startsWithChars ['f', 'a', 'l', 's', 'e'] (c :: rest) with
        | some r => some (.jbool false, r)
        | none =>
          (parseNumLexeme (c :: rest)).map (fun p => (.jnum (String.mk p.1), p.2))

/-- Parse object members; `first` is true before any member has been read. -/
def parseMembers : Nat → List Char → Bool → List (String × JsonVal) →
    Option (JsonVal × List Char)
  | 0, _, _, _ => none
  | Nat.succ fuel, cs, first, acc =>
    match cs with
    | [] => none
    | c :: rest =>
      if c = '}' ∧ first then some (.jobj acc.reverse, rest)
      else
        match
          (if first then some (c :: rest)
           else if c = ',' then some (skipWs rest) else none) with
        | none =>
          if c = '}' then some (.jobj acc.reverse, rest) else none
        | some afterComma =>
          match afterComma with
          | [] => none
          | k :: rest2 =>
            if k = '"' then
              match parseStrChars (rest2.length + 1) rest2 with
              | none => none
              | some (keyChars, rest3) =>
                match skipWs rest3 with
                | ':' :: rest4 =>
                  match parseVal fuel rest4 with
                  | none => none
                  | some (v, rest5) =>
                    parseMembers fuel (skipWs rest5) false
                      ((String.mk keyChars, v) :: acc)
                | _ => none
            else none

/-- Parse array elements; `first` is true before any element has been read. -/
def parseElems : Nat → List Char → Bool → List JsonVal → Option (JsonVal × List Char)
  | 0, _, _, _ => none
  | Nat.succ fuel, cs, first, acc =>
    match cs with
    | [] => none
    | c :: rest =>
      if c = ']' ∧ first then some (.jarr acc.reverse, rest)
      else
        match
          (if first then some (c :: rest)
           else if c = ',' then some (skipWs rest) else none) with
        | none =>
          if c = ']' then some (.jarr acc.reverse, rest) else none
        | some afterComma =>
          match parseVal fuel afterComma with
          | none => none
          | some (v, rest2) => parseElems fuel (skipWs rest2) false (v :: acc)

end

/-- Model of `JSON.parse`: succeeds iff the whole text parses as one value. -/
def jsonParseChars (cs : List Char) : Option JsonVal :=
  match parseVal (cs.length + 1) cs with
  | some (v, rest) => if skipWs rest = [] then some v else none
  | none => none

def jsonParse (s : String) : Option JsonVal :=
  jsonParseChars s.data

/-- Model of JS `String.prototype.trim` on the character list. -/
def trimChars (cs : List Char) : List Char :=
  ((cs.dropWhile Char.isWhitespace).reverse.dropWhile Char.isWhitespace).reverse

/-- Model of JS `split(sep)` for a one-character separator. -/
def splitOnChar (sep : Char) : List Char → List (List Char)
  | [] => [[]]
  | c :: cs =>
    if c = sep then [] :: splitOnChar sep cs
    else
      match splitOnChar sep cs with
      | [] => [[c]]
      | g :: gs => (c :: g) :: gs

/-- Model of `indexOf(sep)` plus the two `substring` calls: the part before
the first `sep` and the part after it, or `none` when `sep` is absent. -/
def breakAtFirst (sep : Char) : List Char → Option (List Char × List Char)
  | [] => none
  | c :: cs =>
    if c = sep then some ([], cs)
    else (breakAtFirst sep cs).map (fun p => (c :: p.1, p.2))

/-! ## parseKeyValuePairs (upload module)

The source returns `Record<string, string> | undefined` and emits warnings
through the logger; the model returns the mapping (values kept as JSON
values, since the JSON branch returns the parsed object as-is) together
with the list of warnings emitted. -/

structure ParseOutcome where
  result : Option (List (String × JsonVal))
  warnings : List String
  deriving Repr

/-- Model of the record write result[key] = value on a JS object: update in place if the key is
present, otherwise append. -/
def insertPair (m : List (String × String)) (k v : String) : List (String × String) :=
  if m.any (fun p => p.1 = k) then m.map (fun p => if p.1 = k then (k, v) else p)
  else m ++ [(k, v)]

/-- One iteration of the semicolon-separated `key=value` loop: trim the
segment, skip it if empty, warn and skip if it has no `=`, otherwise split at
the first `=`, trim key and value, and drop empty keys. -/
def semicolonStep (name : String) (acc : List (String × String) × List String)
    (pair : List Char) : List (String × String) × List String :=
  if trimChars pair = [] then acc
  else
    match breakAtFirst '=' (trimChars pair) with
    | none =>
      (acc.1, acc.2 ++ ["Skipping invalid " ++ name ++ " pair: " ++ String.mk (trimChars pair)])
    | some kv =>
      if String.mk (trimChars kv.1) = "" then acc
      else (insertPair acc.1 (String.mk (trimChars kv.1)) (String.mk (trimChars kv.2)), acc.2)

/-- The semicolon-separated `key=value` loop of the source: split on `;` and
process each segment in order. -/
def semicolonPairs (trimmed : List Char) (name : String) :
    List (String × String) × List String :=
  (splitOnChar ';' trimmed).foldl (semicolonStep name) ([], [])

/-- Observation function: value associated with the first entry whose key is
`k` (JS property lookup on the built record). -/
def kvLookup (m : List (String × String)) (k : String) : Option String :=
  match m with
  | [] => none
  | p :: rest => if p.1 = k then some p.2 else kvLookup rest k

/-- Tail of `parseKeyValuePairs` after the JSON branch: parse the trimmed
input in semicolon format; return absent when zero pairs resulted. -/
def parseSemicolonFormat (trimmed : List Char) (name : String)
    (priorWarnings : List String) : ParseOutcome :=
  ⟨if 0 < (semicolonPairs trimmed name).1.length then
     some ((semicolonPairs trimmed name).1.map (fun p => (p.1, JsonVal.jstr p.2)))
   else none,
   priorWarnings ++ (semicolonPairs trimmed name).2⟩

/-- The function parseKeyValuePairs from the upload module.  Empty / whitespace input is
absent; input whose trimmed form starts with a brace (`startsWith('{')`,
modelled as a head-character test) is first tried as JSON (returning the
parsed object unless it is a non-object or an array, which warns and yields
absent); JSON parse failure falls back to semicolon-format parsing with a
warning.  A JSON text that starts with a brace can only parse to an object,
so `jsObjFields` is exact on that branch. -/
def parseKeyValuePairs (input : String) (name : String) : ParseOutcome :=
  if trimChars input.data = [] then ⟨none, []⟩
  else
    if (trimChars input.data).head? = some '{' then
      match jsonParseChars (trimChars input.data) with
      | some parsed =>
        if ¬ jsTypeofObject parsed ∨ isJsonArr parsed then
          ⟨none, [name ++ " must be a JSON object"]⟩
        else
          ⟨some (jsObjFields parsed), []⟩
      | none =>
        parseSemicolonFormat (trimChars input.data) name
          ["Failed to parse " ++ name ++ " as JSON"]
    else
      parseSemicolonFormat (trimChars input.data) name []

/-- The function parseMetadata from the upload module. -/
def parseMetadata (metadataInput : String) : ParseOutcome :=
  parseKeyValuePairs metadataInput "metadata"

/-! ## Upload module: validation and `uploadStreamToGCS`

GCS calls are abstracted by an environment oracle (`Env`); the byte stream
is represented by the total number of bytes it yields (`DownloadOk.bytesTotal`),
which is what the ByteCountingStream counter reports once the upload has
fully consumed the stream. -/

structure DownloadOk where
  statusCode : Nat
  contentLengthHeader : Nat
  contentType : String
  bytesTotal : Nat
  deriving Repr, DecidableEq

inductive FetchError where
  | network (msg : String)
  | httpStatus (code : Nat) (msg : String)
  deriving Repr, DecidableEq

inductive RunError where
  | storageAccess (msg : String)
  | fetch (e : FetchError)
  | validation (msg : String)
  | upload (msg : String)
  deriving Repr, DecidableEq

structure Env where
  existsRes : Except String Bool
  downloadRes : Except FetchError DownloadOk
  writeRes : Except String Unit
  setClassRes : Except String Unit
  metadataGeneration : Except String String

def validStorageClasses : List String :=
  ["STANDARD", "NEARLINE", "COLDLINE", "ARCHIVE"]

/-- Model of `Array.prototype.join(', ')`. -/
def joinComma : List String → String
  | [] => ""
  | [s] => s
  | s :: rest => s ++ ", " ++ joinComma rest

/-- Storage-class validation: falsy (empty) input is passed through as absent;
a value outside the fixed enumeration throws. -/
def validateStorageClass (storageClass : String) : Except String (Option String) :=
  if storageClass = "" then .ok none
  else if validStorageClasses.contains storageClass then .ok (some storageClass)
  else .error ("Invalid storage class: " ++ storageClass ++ ". Must be one of: " ++
    joinComma validStorageClasses)

def validPredefinedAcls : List String :=
  ["authenticatedRead", "bucketOwnerFullControl", "bucketOwnerRead",
   "private", "projectPrivate", "publicRead"]

/-- Predefined-ACL validation: same shape as the storage-class one. -/
def validatePredefinedAcl (acl : String) : Except String (Option String) :=
  if acl = "" then .ok none
  else if validPredefinedAcls.contains acl then .ok (some acl)
  else .error ("Invalid predefined ACL: " ++ acl ++ ". Must be one of: " ++
    joinComma validPredefinedAcls)

structure UploadOptions where
  bucket : String
  objectName : String
  contentLengthHint : Nat
  contentType : String
  cacheControl : String
  metadata : Option (List (String × JsonVal))
  storageClass : String
  predefinedAcl : String

structure UploadResult where
  generation : String
  gcsUrl : String
  objectExisted : Bool
  deriving Repr, DecidableEq

/-- Effects of one `uploadStreamToGCS` call: how many write streams were
opened toward GCS and how many storage-class updates were issued. -/
structure UploadEffects where
  writeCalls : Nat
  setClassCalls : Nat
  deriving Repr, DecidableEq

/-- After the pipe finished (and the optional storage-class update): read the
object metadata for the generation and build the result.  Failures inside the
try block are wrapped as upload errors by the catch clause. -/
def finishUpload (opts : UploadOptions) (env : Env) (setClassCalls : Nat) :
    Except RunError UploadResult × UploadEffects :=
  match env.metadataGeneration with
  | .error m => (.error (.upload ("Failed to upload to GCS: " ++ m)), ⟨1, setClassCalls⟩)
  | .ok gen =>
    (.ok ⟨gen, "gs://" ++ opts.bucket ++ "/" ++ opts.objectName, false⟩, ⟨1, setClassCalls⟩)

/-- The upload routine: validates storage class and ACL before anything else
(these throw outside the try block, unwrapped), then opens the write stream
and pipes; after a successful pipe, applies the storage-class update when a
class was configured, then reads metadata for the generation.  Every failure
inside the try block is rethrown as `Failed to upload to GCS: ...`. -/
def uploadStreamToGCS (opts : UploadOptions) (env : Env) :
    Except RunError UploadResult × UploadEffects :=
  match validateStorageClass opts.storageClass with
  | .error m => (.error (.validation m), ⟨0, 0⟩)
  | .ok storageClass =>
    match validatePredefinedAcl opts.predefinedAcl with
    | .error m => (.error (.validation m), ⟨0, 0⟩)
    | .ok _ =>
      match env.writeRes with
      | .error m => (.error (.upload ("Failed to upload to GCS: " ++ m)), ⟨1, 0⟩)
      | .ok _ =>
        match storageClass with
        | some _ =>
          match env.setClassRes with
          | .error m => (.error (.upload ("Failed to upload to GCS: " ++ m)), ⟨1, 1⟩)
          | .ok _ => finishUpload opts env 1
        | none => finishUpload opts env 0

/-- The existence check from the orchestrator module: returns the queried boolean, and
rethrows any error (permissions, connectivity) instead of mapping it to
`false`. -/
def objectExists (existsRes : Except String Bool) : Except String Bool :=
  match existsRes with
  | .ok exists2 => .ok exists2
  | .error e => .error e

/-! ## Orchestrator (`run` from `src/index.ts`, check-before-download variant) -/

structure Inputs where
  url : String
  gcsBucket : String
  gcsObject : String
  methodInput : String
  headersInput : String
  postData : String
  timeoutInput : String
  enableRetryInput : String
  authType : String
  authUsername : String
  authPassword : String
  authToken : String
  contentTypeInput : String
  cacheControlInput : String
  metadataInput : String
  storageClassInput : String
  predefinedAclInput : String
  ifNotExistsInput : String

structure Outputs where
  statusCode : String
  contentLength : String
  gcsUrl : String
  generation : String
  objectExisted : String
  deriving Repr, DecidableEq

structure RunTrace where
  fetchCalls : Nat
  writeCalls : Nat
  warnings : List String
  deriving Repr, DecidableEq

structure RunResult where
  outcome : Except RunError Unit
  outputs : Option Outputs
  trace : RunTrace

/-- The download-then-upload tail of `run` (after the optional existence
gate): issue the fetch, then stream into GCS, then read the final byte count
from the counting stream, warn on a Content-Length mismatch, and set the
outputs only after everything succeeded. -/
def runTransfer (inp : Inputs) (env : Env) (storageClass : String)
    (metadata : Option (List (String × JsonVal))) : RunResult :=
  match env.downloadRes with
  | .error e => ⟨.error (.fetch e), none, ⟨1, 0, []⟩⟩
  | .ok d =>
    let contentType := if inp.contentTypeInput = "" then d.contentType else inp.contentTypeInput
    let opts : UploadOptions :=
      ⟨inp.gcsBucket, inp.gcsObject, d.contentLengthHeader, contentType,
       inp.cacheControlInput, metadata, storageClass, inp.predefinedAclInput⟩
    match uploadStreamToGCS opts env with
    | (.error e, eff) => ⟨.error e, none, ⟨1, eff.writeCalls, []⟩⟩
    | (.ok ur, eff) =>
      let actualBytesTransferred := d.bytesTotal
      let warnings :=
        if 0 < d.contentLengthHeader ∧ actualBytesTransferred ≠ d.contentLengthHeader then
          ["Bytes transferred (" ++ toString actualBytesTransferred ++
           ") differs from Content-Length header (" ++ toString d.contentLengthHeader ++ ")"]
        else []
      ⟨.ok (),
       some ⟨ toString d.statusCode, toString actualBytesTransferred,
              ur.gcsUrl, ur.generation, "false"⟩,
       ⟨1, eff.writeCalls, warnings⟩⟩

/-- The orchestrator entry point: gather inputs (with source defaults), parse metadata, optionally
consult the existence gate before any download, and otherwise hand off to the
transfer pipeline.  Any thrown error is caught and reported as the terminal
failure with no outputs set. -/
def run (inp : Inputs) (env : Env) : RunResult :=
  let storageClass := if inp.storageClassInput = "" then "STANDARD" else inp.storageClassInput
  let ifNotExists := inp.ifNotExistsInput = "true"
  let metadata := (parseMetadata inp.metadataInput).result
  if ifNotExists then
    match objectExists env.existsRes with
    | .error m => ⟨.error (.storageAccess m), none, ⟨0, 0, []⟩⟩
    | .ok true =>
      ⟨.ok (),
       some ⟨ "0", "0", "gs://" ++ inp.gcsBucket ++ "/" ++ inp.gcsObject, "", "true"⟩,
       ⟨0, 0, []⟩⟩
    | .ok false => runTransfer inp env storageClass metadata
  else runTransfer inp env storageClass metadata

/-! ## Fetcher retry loop

Modelled from the spec: `download.ts` (the Fetcher) is not among the
provided sources; §4.2 specifies up to 3 total attempts when retry is
enabled, retrying only transient failures (network errors and 5xx/429
statuses), never retrying other 4xx, and surfacing the last error on
exhaustion.  Backoff delays are timing behaviour and are not modelled. -/

inductive AttemptOutcome where
  | response (statusCode : Nat)
  | networkErr (msg : String)
  deriving Repr, DecidableEq

/-- Modelled from the spec: a 2xx response is a successful attempt. -/
def attemptSucceeds : AttemptOutcome → Bool
  | .response code => 200 ≤ code && code < 300
  | .networkErr _ => false

/-- Modelled from the spec: transient failures are network errors and
5xx/429 statuses. -/
def attemptTransient : AttemptOutcome → Bool
  | .networkErr _ => true
  | .response code => (500 ≤ code && code < 600) || code = 429

inductive FetchLoopResult where
  | succeeded (statusCode : Nat) (attempts : Nat)
  | failed (last : AttemptOutcome) (attempts : Nat)
  deriving Repr, DecidableEq

def statusOf : AttemptOutcome → Nat
  | .response code => code
  | .networkErr _ => 0

/-- Modelled from the spec: attempt loop; `oracle i` is the outcome of the
i-th attempt, `remaining` counts attempts still allowed.  Retries only when
attempts remain and the failure is transient; otherwise surfaces the last
outcome. -/
def fetchAttemptLoop (oracle : Nat → AttemptOutcome) (attemptIdx remaining : Nat) :
    FetchLoopResult :=
  match remaining with
  | 0 => .failed (oracle attemptIdx) attemptIdx
  | Nat.succ r =>
    let a := oracle attemptIdx
    if attemptSucceeds a then .succeeded (statusOf a) (attemptIdx + 1)
    else if r ≠ 0 && attemptTransient a then fetchAttemptLoop oracle (attemptIdx + 1) r
    else .failed a (attemptIdx + 1)

/-- Modelled from the spec: a single attempt without retry, up to 3 total
attempts with retry. -/
def fetchWithRetry (oracle : Nat → AttemptOutcome) (retryEnabled : Bool) :
    FetchLoopResult :=
  fetchAttemptLoop oracle 0 (if retryEnabled then 3 else 1)

def attemptsMade : FetchLoopResult → Nat
  | .succeeded _ n => n
  | .failed _ n => n

/-! ## Concrete sample data for witnesses and counterexamples -/

/-- A fetch whose header declares 100 bytes while the stream yields 95. -/
def sampleDownload : DownloadOk := ⟨200, 100, "text/plain", 95⟩

def inputsBase : Inputs :=
  ⟨"https://example.com/data.json", "bkt", "obj",
   "", "", "", "", "", "", "", "", "", "", "", "", "", "", ""⟩

def envOkAll : Env :=
  ⟨.ok false, .ok sampleDownload, .ok (), .ok (), .ok "1700000000000001"⟩

def envExistsTrue : Env := { envOkAll with existsRes := .ok true }

def envExistsFail : Env := { envOkAll with existsRes := .error "permission denied" }

def envFetchFail : Env := { envOkAll with downloadRes := .error (.network "connection refused") }

def envSetClassFail : Env := { envOkAll with setClassRes := .error "backend unavailable" }

/-- Oracle whose first two attempts fail transiently and third succeeds. -/
def flakyOracle : Nat → AttemptOutcome
  | 0 => .networkErr "connection reset"
  | 1 => .response 503
  | _ => .response 200

/-- The invariant behind C4: whenever a run fails, no success outputs (and in
particular no generation) have been set. -/
def NoSuccessOutputsOnFailure (r : RunResult) : Prop :=
  ∀ e, r.outcome = .error e → r.outputs = none

/-! ## Helper lemmas about the key/value parser -/

theorem map_update_keys (k v : String) :
    ∀ m : List (String × String),
      (m.map (fun p => if p.1 = k then (k, v) else p)).map Prod.fst = m.map Prod.fst := by
  intro m
  induction m with
  | nil => rfl
  | cons p t ih =>
    by_cases hp : p.1 = k
    · simp [hp, ih]
    · simp [hp, ih]

theorem kvLookup_update (k v : String) :
    ∀ m : List (String × String), m.any (fun p => p.1 = k) = true →
      kvLookup (m.map (fun p => if p.1 = k then (k, v) else p)) k = some v := by
  intro m
  induction m with
  | nil => intro h; simp at h
  | cons p t ih =>
    intro h
    by_cases hp : p.1 = k
    · simp [kvLookup, hp]
    · have ht : t.any (fun p => p.1 = k) = true := by
        simp only [List.any_cons, Bool.or_eq_true, decide_eq_true_eq] at h
        rcases h with h | h
        · exact absurd h hp
        · simpa using h
      simp [kvLookup, hp, ih ht]

theorem kvLookup_append_missing (k v : String) :
    ∀ m : List (String × String), m.any (fun p => p.1 = k) = false →
      kvLookup (m ++ [(k, v)]) k = some v := by
  intro m
  induction m with
  | nil => intro _; simp [kvLookup]
  | cons p t ih =>
    intro h
    simp only [List.any_cons, Bool.or_eq_false_iff, decide_eq_false_iff_not] at h
    simpa [kvLookup, h.1] using ih (by simpa using h.2)

theorem insertPair_kvLookup (m : List (String × String)) (k v : String) :
    kvLookup (insertPair m k v) k = some v := by
  unfold insertPair
  by_cases hany : m.any (fun p => p.1 = k) = true
  · rw [if_pos hany]
    exact kvLookup_update k v m hany
  · rw [if_neg hany]
    exact kvLookup_append_missing k v m (Bool.eq_false_iff.mpr hany)

theorem insertPair_keys_nodup (m : List (String × String)) (k v : String)
    (h : (m.map Prod.fst).Nodup) : ((insertPair m k v).map Prod.fst).Nodup := by
  unfold insertPair
  by_cases hany : m.any (fun p => p.1 = k) = true
  · rw [if_pos hany, map_update_keys]
    exact h
  · rw [if_neg hany, List.map_append, List.nodup_append]
    refine ⟨h, by simp, ?_⟩
    intro a ha hb
    simp only [List.map_cons, List.map_nil, List.mem_singleton] at hb
    subst hb
    simp only [List.mem_map] at ha
    rcases ha with ⟨p, hp, hpk⟩
    exact hany (by
      simp only [List.any_eq_true, decide_eq_true_eq]
      exact ⟨p, hp, hpk⟩)

theorem semicolonStep_nodup (name : String) (acc : List (String × String) × List String)
    (pair : List Char) (h : (acc.1.map Prod.fst).Nodup) :
    (((semicolonStep name acc pair).1).map Prod.fst).Nodup := by
  unfold semicolonStep
  split
  · exact h
  · split
    · exact h
    · split
      · exact h
      · exact insertPair_keys_nodup _ _ _ h

theorem foldl_semicolonStep_nodup (name : String) (segs : List (List Char)) :
    ∀ acc : List (String × String) × List String, (acc.1.map Prod.fst).Nodup →
      (((segs.foldl (semicolonStep name) acc).1).map Prod.fst).Nodup := by
  induction segs with
  | nil => intro acc h; simpa using h
  | cons s t ih => intro acc h; exact ih _ (semicolonStep_nodup name acc s h)

/-! ## Claims about the key/value parser -/

/-- C7: an input of the semicolon form "a=1; b=2" yields the mapping
a ↦ "1", b ↦ "2"; the JSON form yields the same mapping as "a=1"; and any
input that starts with a brace but fails to parse as JSON falls back to
semicolon-format parsing instead of failing. -/
theorem keyvalue_semicolon_json_and_fallback :
    (parseKeyValuePairs "a=1; b=2" "metadata").result
      = some [("a", JsonVal.jstr "1"), ("b", JsonVal.jstr "2")] ∧
    (parseKeyValuePairs "\x7b\"a\":\"1\"\x7d" "metadata").result
      = (parseKeyValuePairs "a=1" "metadata").result ∧
    ∀ s name, (trimChars s.data).head? = some '{' →
      jsonParseChars (trimChars s.data) = none →
      parseKeyValuePairs s name
        = parseSemicolonFormat (trimChars s.data) name
            ["Failed to parse " ++ name ++ " as JSON"] := by
  refine ⟨ rfl, rfl, ?_⟩
  intro s name h1 h2
  have hne : ¬ trimChars s.data = [] := by
    intro h
    rw [h] at h1
    exact absurd h1 (by simp)
  simp only [parseKeyValuePairs, if_neg hne, h1, if_pos, h2]

/-- Witness for C7: the fallback clause applied to the concrete malformed
input. -/
theorem keyvalue_semicolon_json_and_fallback_witness :
    parseKeyValuePairs "\x7boops" "metadata"
      = parseSemicolonFormat (trimChars ("\x7boops").data) "metadata"
          ["Failed to parse metadata as JSON"] :=
  keyvalue_semicolon_json_and_fallback.2.2 "\x7boops" "metadata" rfl rfl

/-- C8 counterexample: the parser does NOT reject nested values.  On the
input whose JSON object has the nested value \x7b"b":"1"\x7d under key "a",
the parsed object is returned as-is (with no warning), not treated as
absent. -/
theorem keyvalue_nested_value_returned :
    (parseKeyValuePairs "\x7b\"a\":\x7b\"b\":\"1\"\x7d\x7d" "metadata").result
      = some [("a", JsonVal.jobj [("b", JsonVal.jstr "1")])] ∧
    (parseKeyValuePairs "\x7b\"a\":\x7b\"b\":\"1\"\x7d\x7d" "metadata").warnings = [] :=
  ⟨ rfl, rfl⟩

/-- C8 (amended): for input whose trimmed form starts with a brace and
parses as JSON, the parser checks only that the value is a JS object and not
an array (warning and absent otherwise); nested values are not rejected and
the parsed object is returned as-is. -/
theorem keyvalue_json_object_check (s name : String) (v : JsonVal)
    (h1 : (trimChars s.data).head? = some '{')
    (h2 : jsonParseChars (trimChars s.data) = some v) :
    parseKeyValuePairs s name =
      (if ¬ jsTypeofObject v ∨ isJsonArr v then
        (⟨none, [name ++ " must be a JSON object"]⟩ : ParseOutcome)
      else ⟨some (jsObjFields v), []⟩) := by
  have hne : ¬ trimChars s.data = [] := by
    intro h
    rw [h] at h1
    exact absurd h1 (by simp)
  simp only [parseKeyValuePairs, if_neg hne, h1, if_pos, h2]

/-- Witness for C8's amended theorem at a concrete flat object input. -/
theorem keyvalue_json_object_check_witness :
    parseKeyValuePairs "\x7b\"a\":\"1\"\x7d" "metadata"
      = ⟨some [("a", JsonVal.jstr "1")], []⟩ :=
  keyvalue_json_object_check "\x7b\"a\":\"1\"\x7d" "metadata"
    (JsonVal.jobj [("a", JsonVal.jstr "1")]) rfl rfl

/-- C9: in semicolon-format parsing, later occurrences of a key overwrite
earlier ones (the record write `result[key] = value` replaces the stored
value), the resulting mapping has no duplicate keys, and on the concrete
input "a=1; a=2" the kept value is "2". -/
theorem keyvalue_semicolon_last_wins :
    (∀ trimmed name, (((semicolonPairs trimmed name).1).map Prod.fst).Nodup) ∧
    (∀ m k v, kvLookup (insertPair m k v) k = some v) ∧
    (parseKeyValuePairs "a=1; a=2" "metadata").result = some [("a", JsonVal.jstr "2")] := by
  refine ⟨?_, ?_, rfl⟩
  · intro trimmed name
    exact foldl_semicolonStep_nodup name (splitOnChar ';' trimmed) ([], []) (by simp)
  · intro m k v
    exact insertPair_kvLookup m k v

/-- Witness for C9 at concrete inputs. -/
theorem keyvalue_semicolon_last_wins_witness :
    (((semicolonPairs ("a=1; a=2").data "metadata").1).map Prod.fst).Nodup ∧
    kvLookup (insertPair [("a", "1")] "a" "2") "a" = some "2" :=
  ⟨ keyvalue_semicolon_last_wins.1 ("a=1; a=2").data "metadata",
    keyvalue_semicolon_last_wins.2.1 [("a", "1")] "a" "2"⟩

/-! ## Claims about the orchestrator -/

/-- C2: with the if-not-exists policy enabled and an existing destination
object, the run succeeds with no fetch and no write, outputs status-code "0",
content-length "0", object-existed "true" and an empty generation. -/
theorem run_skip_when_object_exists (inp : Inputs) (env : Env)
    (h1 : inp.ifNotExistsInput = "true") (h2 : env.existsRes = .ok true) :
    (run inp env).outcome = .ok () ∧
    (run inp env).outputs =
      some ⟨ "0", "0", "gs://" ++ inp.gcsBucket ++ "/" ++ inp.gcsObject, "", "true"⟩ ∧
    (run inp env).trace.fetchCalls = 0 ∧
    (run inp env).trace.writeCalls = 0 := by
  simp [run, h1, h2, objectExists]

/-- Witness for C2 at the concrete skip environment. -/
theorem run_skip_when_object_exists_witness :
    (run { inputsBase with ifNotExistsInput := "true" } envExistsTrue).outputs =
      some ⟨ "0", "0", "gs://bkt/obj", "", "true"⟩ :=
  (run_skip_when_object_exists { inputsBase with ifNotExistsInput := "true" }
    envExistsTrue rfl rfl).2.1

theorem runTransfer_no_outputs_on_failure (inp : Inputs) (env : Env) (sc : String)
    (md : Option (List (String × JsonVal))) :
    NoSuccessOutputsOnFailure (runTransfer inp env sc md) := by
  unfold runTransfer
  split
  · intro e h; rfl
  · dsimp only
    split
    · intro e h; rfl
    · intro e h; simp at h

/-- C4: success outputs are set only when the run completes; any failing run
(at the existence check, fetch, validation, write, storage-class update or
metadata read) sets no outputs, hence emits no partial generation. -/
theorem run_failure_sets_no_outputs (inp : Inputs) (env : Env) (e : RunError)
    (h : (run inp env).outcome = .error e) : (run inp env).outputs = none := by
  have hinv : NoSuccessOutputsOnFailure (run inp env) := by
    unfold run
    dsimp only
    split
    · split
      · intro e h; rfl
      · intro e h; simp at h
      · exact runTransfer_no_outputs_on_failure _ _ _ _
    · exact runTransfer_no_outputs_on_failure _ _ _ _
  exact hinv e h

/-- Witness for C4: a failing fetch yields no outputs. -/
theorem run_failure_sets_no_outputs_witness :
    (run inputsBase envFetchFail).outcome = .error (.fetch (.network "connection refused")) ∧
    (run inputsBase envFetchFail).outputs = none :=
  ⟨ rfl, run_failure_sets_no_outputs inputsBase envFetchFail _ rfl⟩

/-- C6: the existence check returns the queried boolean on success and
rethrows the error on failure — it never converts a failed check into
`false`; the orchestrator surfaces that error as a storage-access failure
without fetching. -/
theorem exists_check_never_false_on_error :
    (∀ r : Except String Bool, objectExists r = r) ∧
    (∀ m b, objectExists (.error m) ≠ .ok b) ∧
    (∀ inp env m, inp.ifNotExistsInput = "true" → env.existsRes = .error m →
      (run inp env).outcome = .error (.storageAccess m) ∧
      (run inp env).trace.fetchCalls = 0 ∧
      (run inp env).outputs = none) := by
  refine ⟨?_, ?_, ?_⟩
  · intro r; cases r <;> rfl
  · intro m b h; exact Except.noConfusion h
  · intro inp env m h1 h2
    simp [run, h1, h2, objectExists]

/-- Witness for C6 at a concrete failing existence check. -/
theorem exists_check_never_false_on_error_witness :
    objectExists (.error "permission denied") = .error "permission denied" ∧
    (run { inputsBase with ifNotExistsInput := "true" } envExistsFail).outcome
      = .error (.storageAccess "permission denied") :=
  ⟨ exists_check_never_false_on_error.1 (.error "permission denied"),
    (exists_check_never_false_on_error.2.2 { inputsBase with ifNotExistsInput := "true" }
      envExistsFail "permission denied" rfl rfl).1⟩

/-- C1: for a successful transfer, the content-length output is the number
of bytes the counting stream actually observed, never the declared header;
a positive declared length that differs from the count produces a warning
while the run still succeeds. -/
theorem run_success_outputs_counted_bytes (inp : Inputs) (env : Env) (d : DownloadOk)
    (osc oacl : Option String) (g : String)
    (hskip : inp.ifNotExistsInput ≠ "true")
    (hdl : env.downloadRes = .ok d)
    (hsc : validateStorageClass
      (if inp.storageClassInput = "" then "STANDARD" else inp.storageClassInput) = .ok osc)
    (hacl : validatePredefinedAcl inp.predefinedAclInput = .ok oacl)
    (hwr : env.writeRes = .ok ())
    (hcls : env.setClassRes = .ok ())
    (hmeta : env.metadataGeneration = .ok g) :
    (run inp env).outcome = .ok () ∧
    (∃ o, (run inp env).outputs = some o ∧
      o.contentLength = toString d.bytesTotal ∧ o.generation = g) ∧
    (0 < d.contentLengthHeader → d.bytesTotal ≠ d.contentLengthHeader →
      (run inp env).trace.warnings ≠ []) := by
  have hrun : run inp env = runTransfer inp env
      (if inp.storageClassInput = "" then "STANDARD" else inp.storageClassInput)
      (parseMetadata inp.metadataInput).result := by
    simp only [run, if_neg hskip]
  rw [hrun]
  unfold runTransfer
  rw [hdl]
  dsimp only
  rw [show uploadStreamToGCS
      ⟨inp.gcsBucket, inp.gcsObject, d.contentLengthHeader,
        (if inp.contentTypeInput = "" then d.contentType else inp.contentTypeInput),
        inp.cacheControlInput, (parseMetadata inp.metadataInput).result,
        (if inp.storageClassInput = "" then "STANDARD" else inp.storageClassInput),
        inp.predefinedAclInput⟩ env
      = (.ok ⟨g, "gs://" ++ inp.gcsBucket ++ "/" ++ inp.gcsObject, false⟩,
         ⟨1, if osc.isSome then 1 else 0⟩) from ?side]
  · refine ⟨ rfl, ⟨_, rfl, rfl, rfl⟩, ?_⟩
    intro hpos hne
    dsimp only
    rw [if_pos ⟨hpos, hne⟩]
    simp
  case side =>
    unfold uploadStreamToGCS
    rw [hsc, hacl, hwr]
    dsimp only
    cases osc with
    | some sc =>
      rw [hcls]
      unfold finishUpload
      rw [hmeta]
      rfl
    | none =>
      unfold finishUpload
      rw [hmeta]
      rfl

/-- Witness for C1: a successful run whose header declared 100 bytes while
95 were streamed — the output is 95 and a warning is recorded. -/
theorem run_success_outputs_counted_bytes_witness :
    (run inputsBase envOkAll).outcome = .ok () ∧
    (∃ o, (run inputsBase envOkAll).outputs = some o ∧
      o.contentLength = toString sampleDownload.bytesTotal ∧
      o.generation = "1700000000000001") ∧
    (0 < sampleDownload.contentLengthHeader →
      sampleDownload.bytesTotal ≠ sampleDownload.contentLengthHeader →
      (run inputsBase envOkAll).trace.warnings ≠ []) :=
  run_success_outputs_counted_bytes inputsBase envOkAll sampleDownload
    (some "STANDARD") none "1700000000000001" (by decide) rfl rfl rfl rfl rfl rfl

/-- C3 counterexample: configured with the invalid storage-class "FOO", the
run does fail with a validation error, but only after the HTTP fetch has
been issued — one fetch call, not zero. -/
theorem invalid_storage_class_fetches_first :
    (run { inputsBase with storageClassInput := "FOO" } envOkAll).trace.fetchCalls = 1 ∧
    (run { inputsBase with storageClassInput := "FOO" } envOkAll).outcome
      = .error (.validation
          ("Invalid storage class: FOO. Must be one of: STANDARD, NEARLINE, COLDLINE, ARCHIVE")) :=
  ⟨ rfl, rfl⟩

/-- C3 (amended): an invalid storage-class value fails with a validation
error before any write to storage (zero write-stream opens) and sets no
outputs, but the HTTP fetch has already been issued (one fetch call), since
validation happens inside the upload stage, after the download. -/
theorem run_invalid_storage_class (inp : Inputs) (env : Env) (d : DownloadOk)
    (hskip : inp.ifNotExistsInput ≠ "true")
    (hsc : validStorageClasses.contains inp.storageClassInput = false)
    (hne : inp.storageClassInput ≠ "")
    (hdl : env.downloadRes = .ok d) :
    (run inp env).outcome = .error (.validation
      ("Invalid storage class: " ++ inp.storageClassInput ++ ". Must be one of: " ++
        joinComma validStorageClasses)) ∧
    (run inp env).trace.fetchCalls = 1 ∧
    (run inp env).trace.writeCalls = 0 ∧
    (run inp env).outputs = none := by
  have hrun : run inp env = runTransfer inp env
      (if inp.storageClassInput = "" then "STANDARD" else inp.storageClassInput)
      (parseMetadata inp.metadataInput).result := by
    simp only [run, if_neg hskip]
  rw [hrun, if_neg hne]
  unfold runTransfer
  rw [hdl]
  dsimp only
  rw [show uploadStreamToGCS
      ⟨inp.gcsBucket, inp.gcsObject, d.contentLengthHeader,
        (if inp.contentTypeInput = "" then d.contentType else inp.contentTypeInput),
        inp.cacheControlInput, (parseMetadata inp.metadataInput).result,
        inp.storageClassInput, inp.predefinedAclInput⟩ env
      = (.error (.validation
          ("Invalid storage class: " ++ inp.storageClassInput ++ ". Must be one of: " ++
            joinComma validStorageClasses)), ⟨0, 0⟩) from ?side]
  · exact ⟨ rfl, rfl, rfl, rfl⟩
  case side =>
    unfold uploadStreamToGCS validateStorageClass
    rw [if_neg hne, hsc]
    rfl

/-- Witness for C3's amended theorem at the concrete invalid input. -/
theorem run_invalid_storage_class_witness :
    (run { inputsBase with storageClassInput := "FOO" } envOkAll).trace.writeCalls = 0 ∧
    (run { inputsBase with storageClassInput := "FOO" } envOkAll).outputs = none :=
  ⟨ (run_invalid_storage_class { inputsBase with storageClassInput := "FOO" } envOkAll
      sampleDownload (by decide) (by decide) (by decide) rfl).2.2.1,
    (run_invalid_storage_class { inputsBase with storageClassInput := "FOO" } envOkAll
      sampleDownload (by decide) (by decide) (by decide) rfl).2.2.2⟩

/-- C10: when a valid (non-default) storage class is configured and the
post-write storage-class update fails after the streamed write completed,
the whole transfer fails as an upload error and no success outputs are
emitted. -/
theorem storage_class_update_failure_fails_run (inp : Inputs) (env : Env) (d : DownloadOk)
    (m : String) (oacl : Option String)
    (hskip : inp.ifNotExistsInput ≠ "true")
    (hsc : inp.storageClassInput ∈ (["NEARLINE", "COLDLINE", "ARCHIVE"] : List String))
    (hdl : env.downloadRes = .ok d)
    (hacl : validatePredefinedAcl inp.predefinedAclInput = .ok oacl)
    (hwr : env.writeRes = .ok ())
    (hcls : env.setClassRes = .error m) :
    (run inp env).outcome = .error (.upload ("Failed to upload to GCS: " ++ m)) ∧
    (run inp env).outputs = none ∧
    (run inp env).trace.writeCalls = 1 := by
  have hrun : run inp env = runTransfer inp env
      (if inp.storageClassInput = "" then "STANDARD" else inp.storageClassInput)
      (parseMetadata inp.metadataInput).result := by
    simp only [run, if_neg hskip]
  have hsc2 : inp.storageClassInput = "NEARLINE" ∨ inp.storageClassInput = "COLDLINE" ∨
      inp.storageClassInput = "ARCHIVE" := by
    simpa using hsc
  have hne : inp.storageClassInput ≠ "" := by
    rcases hsc2 with h | h | h
    · rw [h]; decide
    · rw [h]; decide
    · rw [h]; decide
  have hvalid : validateStorageClass inp.storageClassInput = .ok (some inp.storageClassInput) := by
    rcases hsc2 with h | h | h
    · rw [h]; rfl
    · rw [h]; rfl
    · rw [h]; rfl
  rw [hrun, if_neg hne]
  unfold runTransfer
  rw [hdl]
  dsimp only
  rw [show uploadStreamToGCS
      ⟨inp.gcsBucket, inp.gcsObject, d.contentLengthHeader,
        (if inp.contentTypeInput = "" then d.contentType else inp.contentTypeInput),
        inp.cacheControlInput, (parseMetadata inp.metadataInput).result,
        inp.storageClassInput, inp.predefinedAclInput⟩ env
      = (.error (.upload ("Failed to upload to GCS: " ++ m)), ⟨1, 1⟩) from ?side]
  · exact ⟨ rfl, rfl, rfl⟩
  case side =>
    unfold uploadStreamToGCS
    rw [hvalid, hacl, hwr]
    dsimp only
    rw [hcls]

/-- Witness for C10 at a concrete failing storage-class update. -/
theorem storage_class_update_failure_fails_run_witness :
    (run { inputsBase with storageClassInput := "NEARLINE" } envSetClassFail).outcome
      = .error (.upload "Failed to upload to GCS: backend unavailable") ∧
    (run { inputsBase with storageClassInput := "NEARLINE" } envSetClassFail).outputs
      = none :=
  ⟨ (storage_class_update_failure_fails_run
      { inputsBase with storageClassInput := "NEARLINE" } envSetClassFail sampleDownload
      "backend unavailable" none (by decide) (by decide) rfl rfl rfl rfl).1,
    (storage_class_update_failure_fails_run
      { inputsBase with storageClassInput := "NEARLINE" } envSetClassFail sampleDownload
      "backend unavailable" none (by decide) (by decide) rfl rfl rfl rfl).2.1⟩

theorem fetchAttemptLoop_attempts_le (oracle : Nat → AttemptOutcome) :
    ∀ rem idx, attemptsMade (fetchAttemptLoop oracle idx rem) ≤ idx + rem := by
  intro rem
  induction rem with
  | zero => intro idx; simp [fetchAttemptLoop, attemptsMade]
  | succ r ih =>
    intro idx
    unfold fetchAttemptLoop
    dsimp only
    by_cases hs : attemptSucceeds (oracle idx) = true
    · simp only [hs, if_true]
      simp only [attemptsMade]
      omega
    · simp only [hs, if_false, Bool.false_eq_true]
      by_cases ht : (r ≠ 0 && attemptTransient (oracle idx)) = true
      · rw [if_pos ht]
        have := ih (idx + 1)
        omega
      · rw [if_neg ht]
        simp only [attemptsMade]
        omega

/-- C5: with retry enabled the fetcher makes at most 3 total attempts; a
non-transient first failure is surfaced immediately without retrying; three
transient failures surface the last error after 3 attempts; and two
transient failures followed by a success yield success with exactly 3
attempts. -/
theorem fetch_retry_behaviour :
    (∀ oracle : Nat → AttemptOutcome, attemptsMade (fetchWithRetry oracle true) ≤ 3) ∧
    (∀ oracle : Nat → AttemptOutcome, attemptSucceeds (oracle 0) = false →
      attemptTransient (oracle 0) = false →
      fetchWithRetry oracle true = .failed (oracle 0) 1) ∧
    (∀ oracle : Nat → AttemptOutcome,
      (∀ i, i < 3 → attemptSucceeds (oracle i) = false ∧ attemptTransient (oracle i) = true) →
      fetchWithRetry oracle true = .failed (oracle 2) 3) ∧
    (∀ oracle : Nat → AttemptOutcome,
      attemptSucceeds (oracle 0) = false → attemptTransient (oracle 0) = true →
      attemptSucceeds (oracle 1) = false → attemptTransient (oracle 1) = true →
      attemptSucceeds (oracle 2) = true →
      fetchWithRetry oracle true = .succeeded (statusOf (oracle 2)) 3) := by
  refine ⟨?_, ?_, ?_, ?_⟩
  · intro oracle
    exact fetchAttemptLoop_attempts_le oracle 3 0
  · intro oracle h0 t0
    simp [fetchWithRetry, fetchAttemptLoop, h0, t0]
  · intro oracle h
    have h0 := h 0 (by omega)
    have h1 := h 1 (by omega)
    have h2 := h 2 (by omega)
    simp [fetchWithRetry, fetchAttemptLoop, h0.1, h0.2, h1.1, h1.2, h2.1, h2.2]
  · intro oracle h0 t0 h1 t1 h2
    simp [fetchWithRetry, fetchAttemptLoop, h0, t0, h1, t1, h2]

/-- Witness for C5: the flaky oracle (network error, then 503, then 200)
succeeds with exactly 3 attempts; a plain 404 fails on the first attempt. -/
theorem fetch_retry_behaviour_witness :
    fetchWithRetry flakyOracle true = .succeeded 200 3 ∧
    fetchWithRetry (fun _ => .response 404) true = .failed (.response 404) 1 :=
  ⟨ fetch_retry_behaviour.2.2.2 flakyOracle rfl rfl rfl rfl rfl,
    fetch_retry_behaviour.2.1 (fun _ => .response 404) rfl rfl⟩

end UrlToGcs
